import Mathlib

/-!
Verification of the fsoc object-store and solution-status client.

The Go sources under `cmd/objstore` (create / create-patch) and
`cmd/solution/status.go` are shallowly embedded below.  External
collaborators (the filesystem, the JSON parser, the HTTP transport, the
cobra flag library) are modelled as explicit inputs: each command is a
pure function from an environment record (holding the flag values and
the collaborators' answers) to an outcome value that records which
error path was taken or which HTTP request was issued, with which URL,
body and headers.
-/

namespace Fsoc

/-- JSON values, as produced by decoding a file into `map[string]interface{}`
(numbers modelled as integers; the client never inspects them). -/
inductive Json where
  | null : Json
  | bool : Bool → Json
  | num : Int → Json
  | str : String → Json
  | arr : List Json → Json
  | obj : List (String × Json) → Json

/-- A decoded Go `map[string]interface{}`: the parsed object definition. -/
abbrev JsonObject := List (String × Json)

/-- Modelled from the spec: `getCorrectLayerID` is called by `insertObject`
and `insertPatchObject` but its definition is not part of the given sources.
Per the spec's Layer Resolver contract, a layer type the system can
auto-derive (the tenant-scoped `TENANT` layer, whose id equals the active
tenant identifier) yields that id; any other layer type (e.g. the spec's
`CUSTOM` scenario) cannot be derived and yields the empty string. -/
def getCorrectLayerID (layerType _objType tenant : String) : String :=
  if layerType = "TENANT" then tenant else ""

/-- `getObjStoreObjectUrl` from the source. -/
def getObjStoreObjectUrl : String := "objstore/v1beta/objects"

/-- The outcome of a write command: each early `return` in the Go code is a
distinct constructor; `requestSent` records the single HTTP call, with its
URL, JSON body, headers, and the transport's answer (`none` = success). -/
inductive WriteOutcome where
  | fileOpenError : WriteOutcome
  | parseError : WriteOutcome
  | layerIdUnresolvedError : WriteOutcome
  | flagError : String → WriteOutcome
  | requestSent : String → JsonObject → List (String × String) → Option String → WriteOutcome

/-- Environment of one `create` invocation: flag values, the results the
collaborators would return (file open, JSON decode, the `layer-id` flag
lookup, the ambient tenant, the transport's answer to the POST). -/
structure CreateEnv where
  objType : String
  objJsonFilePath : String
  openOk : Bool
  parsed : Option JsonObject
  layerType : String
  layerIdChanged : Bool
  layerIdFlag : Except String String
  tenant : String
  postResult : Option String

/-- `insertObject` from the source: open the file, decode it, resolve the
layer id (falling back to the `--layer-id` flag only when derivation gives
the empty string and the flag was explicitly set), then POST the decoded
body to `objstore/v1beta/objects/{type}` with `layer-type`/`layer-id`
headers. -/
def insertObject (env : CreateEnv) : WriteOutcome :=
  if env.openOk = false then .fileOpenError
  else
    match env.parsed with
    | none => .parseError
    | some objectStruct =>
      let layerID := getCorrectLayerID env.layerType env.objType env.tenant
      if layerID = "" then
        if env.layerIdChanged = false then .layerIdUnresolvedError
        else
          match env.layerIdFlag with
          | .error e => .flagError e
          | .ok flagLayerID =>
            .requestSent (getObjStoreObjectUrl ++ "/" ++ env.objType) objectStruct
              [("layer-type", env.layerType), ("layer-id", flagLayerID)] env.postResult
      else
        .requestSent (getObjStoreObjectUrl ++ "/" ++ env.objType) objectStruct
          [("layer-type", env.layerType), ("layer-id", layerID)] env.postResult

/-- Environment of one `create-patch` invocation (there is no `--layer-id`
flag on this command). -/
structure PatchEnv where
  objType : String
  parentObjId : String
  objJsonFilePath : String
  openOk : Bool
  parsed : Option JsonObject
  targetLayerType : String
  tenant : String
  patchResult : Option String

/-- `insertPatchObject` from the source: open, decode, derive the layer id
for the target layer type, and PATCH the decoded body to
`objstore/v1beta/objects/{type}/{parentObjId}`.  Unlike `insertObject`,
the derived layer id is used unconditionally: there is no emptiness check
and no flag fallback. -/
def insertPatchObject (env : PatchEnv) : WriteOutcome :=
  if env.openOk = false then .fileOpenError
  else
    match env.parsed with
    | none => .parseError
    | some objectStruct =>
      let layerID := getCorrectLayerID env.targetLayerType env.objType env.tenant
      .requestSent (getObjStoreObjectUrl ++ "/" ++ env.objType ++ "/" ++ env.parentObjId)
        objectStruct [("layer-type", env.targetLayerType), ("layer-id", layerID)] env.patchResult

/-! ## Solution status command (`cmd/solution/status.go`) -/

/-- `StatusData` from the source: the `data` field of a status record.
Go zero values (empty string, `false`) stand in for absent fields. -/
structure StatusData where
  installTime : String
  installMessage : String
  successfulInstall : Bool
  solutionName : String
  solutionVersion : String

/-- `StatusItem` from the source: one record of a status resource. -/
structure StatusItem where
  statusData : StatusData
  createdAt : String

/-- `ResponseBlob` from the source: the `items` list of a GET response. -/
structure ResponseBlob where
  items : List StatusItem

/-- The Go zero value of `StatusItem` (`var emptyData StatusItem`). -/
def emptyStatusItem : StatusItem := ⟨⟨"", "", false, "", ""⟩, ""⟩

/-- The HTTP GET collaborator: maps a URL and headers to either a transport
error (`log.Fatalf` in the source) or a decoded response body. -/
abbrev Transport := String → List (String × String) → Except String ResponseBlob

/-- `getObject` from the source: issue the GET; a transport error is fatal
(`Except.error`); otherwise return the first item, or the zero-valued
record when the result set is empty. -/
def getObject (url : String) (headers : List (String × String)) (t : Transport) :
    Except String StatusItem :=
  match t url headers with
  | .error e => .error e
  | .ok res =>
    match res.items with
    | [] => .ok emptyStatusItem
    | item :: _ => .ok item

/-- `fmt.Sprintf "%v"` on a Go bool. -/
def goFormatBool (b : Bool) : String := if b then "true" else "false"

/-- The row-assembly part of `fetchValuesAndPrint`: the header row and the
value row built by the `appendValue` closure, starting from the
`Solution Name` column (always taken from the upload record) and extended
according to the requested operation. -/
def buildStatusRow (operation : String) (uploadStatusItem installStatusItem : StatusItem) :
    List String × List String :=
  let installStatusData := installStatusItem.statusData
  let uploadStatusData := uploadStatusItem.statusData
  let uploadStatusTimestamp := uploadStatusItem.createdAt
  let start : List String × List String := (["Solution Name"], [uploadStatusData.solutionName])
  let appendValue := fun (acc : List String × List String) (header value : String) =>
    (acc.1 ++ [header], acc.2 ++ [value])
  if operation = "upload" then
    appendValue (appendValue start
      "Solution Upload Version" uploadStatusData.solutionVersion)
      "Upload Timestamp" uploadStatusTimestamp
  else if operation = "install" then
    appendValue (appendValue (appendValue (appendValue start
      "Solution Install Version" installStatusData.solutionVersion)
      "Solution Install Successful?" (goFormatBool installStatusData.successfulInstall))
      "Solution Install Time" installStatusData.installTime)
      "Solution Install Message" installStatusData.installMessage
  else
    appendValue (appendValue (appendValue (appendValue (appendValue (appendValue start
      "Solution Upload Version" uploadStatusData.solutionVersion)
      "Upload Timestamp" uploadStatusTimestamp)
      "Solution Install Version" installStatusData.solutionVersion)
      "Solution Install Successful?" (goFormatBool installStatusData.successfulInstall))
      "Solution Install Time" installStatusData.installTime)
      "Solution Install Message" installStatusData.installMessage

/-- `getSolutionReleaseUrl` from the source (a `Sprintf` format string). -/
def getSolutionReleaseUrl : String :=
  "objstore/v1beta/objects/extensibility:solutionRelease%s"

/-- `getSolutionInstallUrl` from the source (a `Sprintf` format string). -/
def getSolutionInstallUrl : String :=
  "objstore/v1beta/objects/extensibility:solutionInstall%s"

/-- Substitute a string for the first `%s` verb of a format string
(`fmt.Sprintf` with one argument; both format strings above hold exactly
one verb). -/
def substFirstVerb : List Char → String → String
  | [], _ => ""
  | '%' :: 's' :: rest, arg => arg ++ String.mk rest
  | c :: rest, arg => String.singleton c ++ substFirstVerb rest arg

/-- `fmt.Sprintf` with a single `%s` argument. -/
def goSprintf1 (format arg : String) : String := substFirstVerb format.data arg

/-- A run of `fetchValuesAndPrint`: the GET requests issued in order, and
either the fatal transport error (`log.Fatalf` terminates the process, so
a failure on the first GET means the second is never issued) or the
printed row. -/
structure FetchRun where
  requests : List (String × List (String × String))
  outcome : Except String (List String × List String)

/-- `fetchValuesAndPrint` from the source: GET the release (upload) record,
then the install record, with the same query and headers, then assemble
the row for the requested operation. -/
def fetchValuesAndPrint (operation query : String) (requestHeaders : List (String × String))
    (t : Transport) : FetchRun :=
  let uploadUrl := goSprintf1 getSolutionReleaseUrl query
  match getObject uploadUrl requestHeaders t with
  | .error e => ⟨[(uploadUrl, requestHeaders)], .error e⟩
  | .ok uploadStatusItem =>
    let installUrl := goSprintf1 getSolutionInstallUrl query
    match getObject installUrl requestHeaders t with
    | .error e => ⟨[(uploadUrl, requestHeaders), (installUrl, requestHeaders)], .error e⟩
    | .ok installStatusItem =>
      ⟨[(uploadUrl, requestHeaders), (installUrl, requestHeaders)],
        .ok (buildStatusRow operation uploadStatusItem installStatusItem)⟩

/-- UTF-8 encoding of one character, as a list of byte values. -/
def utf8Bytes (c : Char) : List Nat :=
  let n := c.toNat
  if n < 0x80 then [n]
  else if n < 0x800 then [0xC0 + n / 64, 0x80 + n % 64]
  else if n < 0x10000 then
    [0xE0 + n / 4096, 0x80 + n / 64 % 64, 0x80 + n % 64]
  else
    [0xF0 + n / 262144, 0x80 + n / 4096 % 64, 0x80 + n / 64 % 64, 0x80 + n % 64]

/-- An uppercase hexadecimal digit. -/
def upperHexDigit (n : Nat) : Char :=
  if n < 10 then Char.ofNat (48 + n) else Char.ofNat (55 + n)

/-- Go `url.QueryEscape` on one byte: alphanumerics and `-_.~` unescaped,
space becomes `+`, everything else percent-encoded. -/
def queryEscapeByte (b : Nat) : String :=
  if (48 ≤ b && b ≤ 57) || (65 ≤ b && b ≤ 90) || (97 ≤ b && b ≤ 122)
      || b = 45 || b = 95 || b = 46 || b = 126 then
    String.singleton (Char.ofNat b)
  else if b = 32 then "+"
  else "%" ++ String.singleton (upperHexDigit (b / 16))
        ++ String.singleton (upperHexDigit (b % 16))

/-- Go `url.QueryEscape`: escape each UTF-8 byte of the string. -/
def queryEscape (s : String) : String :=
  String.join (((s.data.map utf8Bytes).flatten).map queryEscapeByte)

/-- The filter expression built by `getSolutionStatus`: two `eq` clauses
when a solution version was given, one clause otherwise. -/
def buildFilterQuery (solutionName solutionVersion : String) : String :=
  if solutionVersion ≠ "" then
    "data.solutionName eq \"" ++ solutionName ++ "\" and data.solutionVersion eq \""
      ++ solutionVersion ++ "\""
  else
    "data.solutionName eq \"" ++ solutionName ++ "\""

/-- The query string built by `getSolutionStatus`:
`?order=<esc "desc">&filter=<esc filter>&max=1`. -/
def buildStatusQuery (solutionName solutionVersion : String) : String :=
  "?order=" ++ queryEscape "desc" ++ "&filter="
    ++ queryEscape (buildFilterQuery solutionName solutionVersion) ++ "&max=1"

/-- Environment of one `status` invocation. -/
structure StatusEnv where
  solutionName : String
  solutionVersion : String
  statusType : String
  tenant : String
  transport : Transport

/-- `getSolutionStatus` from the source: tenant-layer headers, the
filter/order/limit query, then `fetchValuesAndPrint`. -/
def getSolutionStatus (env : StatusEnv) : FetchRun :=
  let headers := [("layer-type", "TENANT"), ("layer-id", env.tenant)]
  let query := buildStatusQuery env.solutionName env.solutionVersion
  fetchValuesAndPrint env.statusType query headers env.transport

/-! ## Claims about the write protocol -/

/-- C1 counterexample: the claim that no write operation ever issues its
HTTP request with an empty `layer-id` header is false for `create-patch`:
with a non-auto-derivable target layer type (`CUSTOM`) the PATCH request
is issued, and its `layer-id` header is the empty string. -/
theorem create_patch_sends_empty_layer_id :
    insertPatchObject
      ⟨"k8s:resource", "parent1", "obj.json", true, some [], "CUSTOM", "acme", none⟩ =
      .requestSent "objstore/v1beta/objects/k8s:resource/parent1" []
        [("layer-type", "CUSTOM"), ("layer-id", "")] none := rfl

/-- C1 (amended): for the `create` operation, if the layer id cannot be
auto-derived from the layer type and the `--layer-id` flag was not
supplied, the operation fails before any request is sent (the
`create-patch` operation performs no such check). -/
theorem create_unresolved_layer_id_aborts (env : CreateEnv)
    (hderive : getCorrectLayerID env.layerType env.objType env.tenant = "")
    (hflag : env.layerIdChanged = false) :
    ∀ url body hs r, insertObject env ≠ .requestSent url body hs r := by
  obtain ⟨ot, fp, oo, p, lt, lc, lf, tn, pr⟩ := env
  intro url body hs r h
  cases oo <;> cases p <;> simp_all [insertObject]

/-- Witness for C1's amended theorem: a concrete `create` invocation with
the non-derivable `CUSTOM` layer type and no `--layer-id` flag. -/
theorem create_unresolved_layer_id_aborts_witness :
    insertObject
      ⟨"k8s:resource", "obj.json", true, some [], "CUSTOM", false, .ok "", "acme", none⟩ ≠
      .requestSent "objstore/v1beta/objects/k8s:resource" []
        [("layer-type", "CUSTOM"), ("layer-id", "")] none :=
  create_unresolved_layer_id_aborts
    ⟨"k8s:resource", "obj.json", true, some [], "CUSTOM", false, .ok "", "acme", none⟩
    rfl rfl _ _ _ _

/-- C2: for both `create` and `create-patch`, a file that cannot be opened,
or contents that fail to decode as a JSON object, abort the operation with
the corresponding error outcome; no `requestSent` outcome (the only
outcome representing a network call) is produced. -/
theorem write_local_errors_abort (cEnv : CreateEnv) (pEnv : PatchEnv) :
    (cEnv.openOk = false → insertObject cEnv = .fileOpenError) ∧
    (cEnv.openOk = true → cEnv.parsed = none → insertObject cEnv = .parseError) ∧
    (pEnv.openOk = false → insertPatchObject pEnv = .fileOpenError) ∧
    (pEnv.openOk = true → pEnv.parsed = none → insertPatchObject pEnv = .parseError) := by
  obtain ⟨ot, fp, oo, p, lt, lc, lf, tn, pr⟩ := cEnv
  obtain ⟨ot2, pid, fp2, oo2, p2, lt2, tn2, pr2⟩ := pEnv
  refine ⟨fun h => ?_, fun h hp => ?_, fun h => ?_, fun h hp => ?_⟩ <;>
    subst h <;> simp_all [insertObject, insertPatchObject]

/-- Witness for C2 at concrete inputs: an unopenable file and an unparsable
file, for each of the two write operations. -/
theorem write_local_errors_abort_witness :
    insertObject ⟨"t", "missing.json", false, none, "TENANT", false, .ok "", "acme", none⟩ =
      .fileOpenError ∧
    insertObject ⟨"t", "bad.json", true, none, "TENANT", false, .ok "", "acme", none⟩ =
      .parseError ∧
    insertPatchObject ⟨"t", "p1", "missing.json", false, none, "TENANT", "acme", none⟩ =
      .fileOpenError ∧
    insertPatchObject ⟨"t", "p1", "bad.json", true, none, "TENANT", "acme", none⟩ =
      .parseError :=
  ⟨(write_local_errors_abort
      ⟨"t", "missing.json", false, none, "TENANT", false, .ok "", "acme", none⟩
      ⟨"t", "p1", "missing.json", false, none, "TENANT", "acme", none⟩).1 rfl,
   (write_local_errors_abort
      ⟨"t", "bad.json", true, none, "TENANT", false, .ok "", "acme", none⟩
      ⟨"t", "p1", "bad.json", true, none, "TENANT", "acme", none⟩).2.1 rfl rfl,
   (write_local_errors_abort
      ⟨"t", "missing.json", false, none, "TENANT", false, .ok "", "acme", none⟩
      ⟨"t", "p1", "missing.json", false, none, "TENANT", "acme", none⟩).2.2.1 rfl,
   (write_local_errors_abort
      ⟨"t", "bad.json", true, none, "TENANT", false, .ok "", "acme", none⟩
      ⟨"t", "p1", "bad.json", true, none, "TENANT", "acme", none⟩).2.2.2 rfl rfl⟩

/-- C3: when auto-derivation returns a non-empty layer id, `create` uses
that id as the `layer-id` header; the environment's `--layer-id` flag
state (`layerIdChanged`, `layerIdFlag`) is arbitrary and absent from the
conclusion, so any supplied value is ignored. -/
theorem create_derived_id_ignores_flag (env : CreateEnv) (body : JsonObject)
    (hopen : env.openOk = true) (hparsed : env.parsed = some body)
    (hderive : getCorrectLayerID env.layerType env.objType env.tenant ≠ "") :
    insertObject env = .requestSent (getObjStoreObjectUrl ++ "/" ++ env.objType) body
      [("layer-type", env.layerType),
       ("layer-id", getCorrectLayerID env.layerType env.objType env.tenant)]
      env.postResult := by
  obtain ⟨ot, fp, oo, p, lt, lc, lf, tn, pr⟩ := env
  subst hopen
  simp_all [insertObject]

/-- Witness for C3: a `TENANT`-layer `create` with tenant `acme` and an
explicitly supplied conflicting `--layer-id other`; the header still
carries `acme`. -/
theorem create_derived_id_ignores_flag_witness :
    insertObject
      ⟨"k8s:resource", "obj.json", true, some [], "TENANT", true, .ok "other", "acme", none⟩ =
      .requestSent "objstore/v1beta/objects/k8s:resource" []
        [("layer-type", "TENANT"), ("layer-id", "acme")] none :=
  create_derived_id_ignores_flag
    ⟨"k8s:resource", "obj.json", true, some [], "TENANT", true, .ok "other", "acme", none⟩
    [] rfl rfl (by decide)

/-- C9: whenever `create` or `create-patch` issues its request, the JSON
body of that request is exactly the value decoded from the object file —
no transformation, validation or filtering is applied in between. -/
theorem write_body_roundtrip :
    (∀ (env : CreateEnv) url body hs r,
      insertObject env = .requestSent url body hs r → env.parsed = some body) ∧
    (∀ (env : PatchEnv) url body hs r,
      insertPatchObject env = .requestSent url body hs r → env.parsed = some body) := by
  constructor
  · rintro ⟨ot, fp, oo, p, lt, lc, lf, tn, pr⟩ url body hs r h
    cases oo <;> cases p <;> by_cases hd : getCorrectLayerID lt ot tn = "" <;>
      cases lc <;> cases lf <;> simp_all [insertObject]
  · rintro ⟨ot2, pid, fp2, oo2, p2, lt2, tn2, pr2⟩ url body hs r h
    cases oo2 <;> cases p2 <;> simp_all [insertPatchObject]

/-- Witness for C9: concrete `create` and `create-patch` runs whose sent
body is recovered as the parsed file content. -/
theorem write_body_roundtrip_witness :
    (CreateEnv.mk "t" "obj.json" true (some [("k", Json.str "v")]) "TENANT" false
        (.ok "") "acme" none).parsed = some [("k", Json.str "v")] ∧
    (PatchEnv.mk "t" "p1" "obj.json" true (some [("k", Json.str "v")]) "TENANT"
        "acme" none).parsed = some [("k", Json.str "v")] :=
  ⟨write_body_roundtrip.1
      (CreateEnv.mk "t" "obj.json" true (some [("k", Json.str "v")]) "TENANT" false
        (.ok "") "acme" none) _ _ _ _ rfl,
   write_body_roundtrip.2
      (PatchEnv.mk "t" "p1" "obj.json" true (some [("k", Json.str "v")]) "TENANT"
        "acme" none) _ _ _ _ rfl⟩

/-! ## Claims about the status protocol -/

/-- C4: the status query is a pure function of name and version (it is a
Lean function of exactly those two arguments): a non-empty version gives
the two-clause filter, an empty version the one-clause filter, and the
full query string always carries `order=desc` and `max=1` around the
escaped filter. -/
theorem status_query_deterministic (n v : String) :
    (v ≠ "" → buildFilterQuery n v =
      "data.solutionName eq \"" ++ n ++ "\" and data.solutionVersion eq \"" ++ v ++ "\"") ∧
    (v = "" → buildFilterQuery n v = "data.solutionName eq \"" ++ n ++ "\"") ∧
    buildStatusQuery n v =
      "?order=desc&filter=" ++ queryEscape (buildFilterQuery n v) ++ "&max=1" := by
  refine ⟨fun h => ?_, fun h => ?_, ?_⟩
  · simp [buildFilterQuery, h]
  · simp [buildFilterQuery, h]
  · rfl

/-- Witness for C4: the spec's own scenario, `mySolution` at version
`1.2.0`, and the same name with the version omitted. -/
theorem status_query_deterministic_witness :
    buildFilterQuery "mySolution" "1.2.0" =
      "data.solutionName eq \"mySolution\" and data.solutionVersion eq \"1.2.0\"" ∧
    buildFilterQuery "mySolution" "" = "data.solutionName eq \"mySolution\"" :=
  ⟨(status_query_deterministic "mySolution" "1.2.0").1 (by decide),
   (status_query_deterministic "mySolution" "").2.1 rfl⟩

/-- C5: the report row as a function of the status type: three upload
columns for `"upload"`, five install columns for `"install"` (the success
boolean rendered as text), and the seven combined columns for anything
else. -/
theorem status_row_columns (operation : String) (up inst : StatusItem) :
    buildStatusRow operation up inst =
      if operation = "upload" then
        (["Solution Name", "Solution Upload Version", "Upload Timestamp"],
         [up.statusData.solutionName, up.statusData.solutionVersion, up.createdAt])
      else if operation = "install" then
        (["Solution Name", "Solution Install Version", "Solution Install Successful?",
          "Solution Install Time", "Solution Install Message"],
         [up.statusData.solutionName, inst.statusData.solutionVersion,
          goFormatBool inst.statusData.successfulInstall, inst.statusData.installTime,
          inst.statusData.installMessage])
      else
        (["Solution Name", "Solution Upload Version", "Upload Timestamp",
          "Solution Install Version", "Solution Install Successful?",
          "Solution Install Time", "Solution Install Message"],
         [up.statusData.solutionName, up.statusData.solutionVersion, up.createdAt,
          inst.statusData.solutionVersion, goFormatBool inst.statusData.successfulInstall,
          inst.statusData.installTime, inst.statusData.installMessage]) := by
  by_cases h1 : operation = "upload"
  · simp [buildStatusRow, h1]
  · by_cases h2 : operation = "install" <;> simp [buildStatusRow, h1, h2]

/-- C6: whenever the transport answers both sub-queries, a status
invocation issues exactly two GET requests — first to the solutionRelease
(upload) resource, then to the solutionInstall resource — both formed from
the same query string and the same headers, whatever status type was
requested for display. -/
theorem status_issues_two_queries (operation query : String)
    (hs : List (String × String)) (t : Transport) (b1 b2 : ResponseBlob)
    (h1 : t (goSprintf1 getSolutionReleaseUrl query) hs = .ok b1)
    (h2 : t (goSprintf1 getSolutionInstallUrl query) hs = .ok b2) :
    (fetchValuesAndPrint operation query hs t).requests =
      [(goSprintf1 getSolutionReleaseUrl query, hs),
       (goSprintf1 getSolutionInstallUrl query, hs)] := by
  obtain ⟨items1⟩ := b1
  obtain ⟨items2⟩ := b2
  cases items1 <;> cases items2 <;>
    simp [fetchValuesAndPrint, getObject, h1, h2]

/-- Witness for C6: a concrete transport answering both queries with empty
result sets; the two URLs are the release and install resources with the
query appended. -/
theorem status_issues_two_queries_witness :
    (fetchValuesAndPrint "install" "?q" [("layer-type", "TENANT"), ("layer-id", "acme")]
        (fun _ _ => .ok ⟨[]⟩)).requests =
      [("objstore/v1beta/objects/extensibility:solutionRelease?q",
        [("layer-type", "TENANT"), ("layer-id", "acme")]),
       ("objstore/v1beta/objects/extensibility:solutionInstall?q",
        [("layer-type", "TENANT"), ("layer-id", "acme")])] := by
  exact status_issues_two_queries "install" "?q" _ _ ⟨[]⟩ ⟨[]⟩ rfl rfl

/-- C7: a transport failure on either sub-query makes the whole status
command end in that fatal error: the run's outcome is the error, never a
row. -/
theorem status_transport_failure_fatal (operation query : String)
    (hs : List (String × String)) (t : Transport) (e : String) :
    (t (goSprintf1 getSolutionReleaseUrl query) hs = .error e →
      (fetchValuesAndPrint operation query hs t).outcome = .error e) ∧
    (∀ b1, t (goSprintf1 getSolutionReleaseUrl query) hs = .ok b1 →
      t (goSprintf1 getSolutionInstallUrl query) hs = .error e →
      (fetchValuesAndPrint operation query hs t).outcome = .error e) := by
  constructor
  · intro h1
    simp [fetchValuesAndPrint, getObject, h1]
  · rintro ⟨items1⟩ h1 h2
    cases items1 <;> simp [fetchValuesAndPrint, getObject, h1, h2]

/-- Witness for C7: a transport that fails every request; the command's
outcome is that error. -/
theorem status_transport_failure_fatal_witness :
    (fetchValuesAndPrint "all" "?q" [] (fun _ _ => .error "boom")).outcome =
      .error "boom" :=
  (status_transport_failure_fatal "all" "?q" [] (fun _ _ => .error "boom") "boom").1 rfl

/-- C8: an empty result set is not an error: `getObject` returns the
zero-valued record (every field empty or `false`), and when both
sub-queries come back empty the command still produces a row. -/
theorem status_empty_result_not_error (url operation query : String)
    (hs : List (String × String)) (t : Transport) :
    (t url hs = .ok ⟨[]⟩ → getObject url hs t = .ok emptyStatusItem) ∧
    (t (goSprintf1 getSolutionReleaseUrl query) hs = .ok ⟨[]⟩ →
      t (goSprintf1 getSolutionInstallUrl query) hs = .ok ⟨[]⟩ →
      (fetchValuesAndPrint operation query hs t).outcome =
        .ok (buildStatusRow operation emptyStatusItem emptyStatusItem)) ∧
    emptyStatusItem.statusData.installTime = "" ∧
    emptyStatusItem.statusData.installMessage = "" ∧
    emptyStatusItem.statusData.successfulInstall = false ∧
    emptyStatusItem.statusData.solutionName = "" ∧
    emptyStatusItem.statusData.solutionVersion = "" ∧
    emptyStatusItem.createdAt = "" := by
  refine ⟨fun h => ?_, fun h1 h2 => ?_, rfl, rfl, rfl, rfl, rfl, rfl⟩
  · simp [getObject, h]
  · simp [fetchValuesAndPrint, getObject, h1, h2]

/-- Witness for C8: a transport answering every request with an empty
result set; the command proceeds to a row built from zero-valued
records. -/
theorem status_empty_result_not_error_witness :
    (fetchValuesAndPrint "upload" "?q" [] (fun _ _ => .ok ⟨[]⟩)).outcome =
      .ok (buildStatusRow "upload" emptyStatusItem emptyStatusItem) :=
  (status_empty_result_not_error "u" "upload" "?q" [] (fun _ _ => .ok ⟨[]⟩)).2.1 rfl rfl

/-- C10: in every report row the first column is `Solution Name` and its
value is the upload record's solution name, for every status type; with a
missing upload record (the zero-valued item) the value is empty whatever
the install record holds. -/
theorem solution_name_from_upload_record (operation : String) (up inst : StatusItem) :
    (buildStatusRow operation up inst).1.head? = some "Solution Name" ∧
    (buildStatusRow operation up inst).2.head? = some up.statusData.solutionName ∧
    (buildStatusRow operation emptyStatusItem inst).2.head? = some "" := by
  by_cases h1 : operation = "upload" <;> by_cases h2 : operation = "install" <;>
    simp [buildStatusRow, h1, h2, emptyStatusItem]

end Fsoc
